import Mathlib

/-!
# Stellar Pool — physics engine verification

Shallow embedding of the physics/collision core of the Stellar-Pool game
(`src/modules/physics.js`, with the event handlers of `src/game.js`), and
proofs settling the specification claims about it.

Modelling conventions:
* JavaScript numbers are modelled as exact rationals (`ℚ`).
* Every comparison of the form `Math.sqrt e < t` in the source (with `t ≥ 0`
  and `e ≥ 0`) is embedded in the equivalent squared form `e < t * t`
  (square root is monotone), which keeps all predicates decidable.
* The only places where the *value* of a square root is used are the
  direction normalisation of `shootStar` and the `cos/sin (atan2 …)`
  repulsion impulses; these are embedded through `ratSqrt`, an exact
  rational square root (exact whenever the radicand is the square of a
  rational, which the theorems require as a hypothesis where they depend
  on it).
* Event callbacks (`game.onStarBounce`, `game.onStarInHole`,
  `game.onStarHitMeteorite`) are modelled as an emitted event list.
* `Math.random()` draws are passed in explicitly as a rational parameter
  `rand` with `0 ≤ rand < 1`.
-/

namespace StellarPool

/-- Exact rational square root: for `q = n / d` in lowest terms this is
`Nat.sqrt n / Nat.sqrt d`, which equals the real square root of `q`
whenever `q` is the square of a rational (nonnegative numerator and
denominator are squares in lowest terms). -/
def ratSqrt (q : ℚ) : ℚ :=
  if q ≤ 0 then 0 else (Nat.sqrt q.num.toNat : ℚ) / (Nat.sqrt q.den : ℚ)

/-- `cos (atan2 dy dx)`, embedded exactly: `dx / sqrt (dx² + dy²)`
(JavaScript's `Math.atan2(0,0) = 0`, whose cosine is `1`). -/
def cosAtan2 (dy dx : ℚ) : ℚ :=
  if dx = 0 ∧ dy = 0 then 1 else dx / ratSqrt (dx * dx + dy * dy)

/-- `sin (atan2 dy dx)`, embedded exactly: `dy / sqrt (dx² + dy²)`
(JavaScript's `Math.atan2(0,0) = 0`, whose sine is `0`). -/
def sinAtan2 (dy dx : ℚ) : ℚ :=
  if dx = 0 ∧ dy = 0 then 0 else dy / ratSqrt (dx * dx + dy * dy)

/-! ## Constants (constructor of `PhysicsEngine`, `physics.js` lines 14-37) -/

def friction : ℚ := 98 / 100
def minSpeed : ℚ := 1 / 2
def collisionThreshold : ℚ := 25
def MAX_VELOCITY : ℚ := 25
def STAR_RADIUS : ℚ := 16
def HOLE_RADIUS : ℚ := 20
def METEORITE_RADIUS : ℚ := 15
def POWER_FACTOR : ℚ := 12 / 100
/-- Board extents used by `checkBoundaryCollisions` and `updateMeteorites`. -/
def boardWidth : ℚ := 1600
def boardHeight : ℚ := 800

/-! ## Data model (`initializeStars` / `initializeHoles` / `initializeMeteorites`) -/

structure Star where
  id : String
  x : ℚ
  y : ℚ
  vx : ℚ
  vy : ℚ
  mass : ℚ
  restitution : ℚ
  moving : Bool
  inHole : Bool
  rotation : ℚ
  radius : ℚ
  deriving Repr, DecidableEq

structure Hole where
  id : String
  x : ℚ
  y : ℚ
  radius : ℚ
  isActive : Bool
  deriving Repr, DecidableEq

structure Meteorite where
  id : String
  x : ℚ
  y : ℚ
  radius : ℚ
  vx : ℚ
  vy : ℚ
  rotationSpeed : ℚ
  rotation : ℚ
  deriving Repr, DecidableEq

/-- Events emitted to the game layer through the
`game.onStarBounce` / `game.onStarInHole` / `game.onStarHitMeteorite`
callbacks. -/
inductive Event where
  | bounce (starId : String)
  | targetEntered (starId : String)
  | hazardHit (starId : String)
  deriving Repr, DecidableEq

/-- The mutable state of `PhysicsEngine` relevant to the simulation. -/
structure PhysState where
  stars : List Star
  holes : List Hole
  meteorites : List Meteorite
  enabled : Bool
  deriving Repr, DecidableEq

/-- Squared speed of a star; the source compares `Math.sqrt speedSq` against
thresholds, which we embed in squared form. -/
def speedSq (s : Star) : ℚ := s.vx * s.vx + s.vy * s.vy

/-! ## `checkBoundaryCollisions` (`physics.js` lines 356-382) -/

def checkBoundaryCollisions (star : Star) : Star × List Event :=
  let r := star.radius
  -- Colisión con bordes horizontales
  let p1 : Star × List Event :=
    if star.x < r then
      ({ star with x := r, vx := star.vx * (-star.restitution) }, [Event.bounce star.id])
    else if star.x > boardWidth - r then
      ({ star with x := boardWidth - r, vx := star.vx * (-star.restitution) },
        [Event.bounce star.id])
    else (star, [])
  -- Colisión con bordes verticales
  let s1 := p1.1
  if s1.y < r then
    ({ s1 with y := r, vy := s1.vy * (-s1.restitution) }, p1.2 ++ [Event.bounce star.id])
  else if s1.y > boardHeight - r then
    ({ s1 with y := boardHeight - r, vy := s1.vy * (-s1.restitution) },
      p1.2 ++ [Event.bounce star.id])
  else p1

/-! ## `checkHoleCollisions` (`physics.js` lines 387-414) -/

/-- One iteration of the `holes.forEach` body. The source compares
`Math.sqrt (dx²+dy²) < collisionThreshold`; we use the equivalent squared
comparison.  The repulsion impulse is
`(cos (atan2 dy dx) * 2, sin (atan2 dy dx) * 2)`. -/
def holeCollisionStep (acc : Star × List Event) (hole : Hole) : Star × List Event :=
  let star := acc.1
  let dx := star.x - hole.x
  let dy := star.y - hole.y
  if dx * dx + dy * dy < collisionThreshold * collisionThreshold then
    if hole.isActive then
      ({ star with inHole := true, moving := false, vx := 0, vy := 0 },
        acc.2 ++ [Event.targetEntered star.id])
    else
      ({ star with vx := cosAtan2 dy dx * 2, vy := sinAtan2 dy dx * 2 }, acc.2)
  else acc

def checkHoleCollisions (holes : List Hole) (star : Star) : Star × List Event :=
  holes.foldl holeCollisionStep (star, [])

/-! ## `checkMeteoriteCollisions` (`physics.js` lines 419-439) -/

/-- One iteration of the `meteorites.forEach` body; the distance test
`Math.sqrt (dx²+dy²) < star.radius + meteorite.radius` is embedded in
squared form, and the repulsion impulse has magnitude `5`. -/
def meteoriteCollisionStep (acc : Star × List Event) (m : Meteorite) :
    Star × List Event :=
  let star := acc.1
  let dx := star.x - m.x
  let dy := star.y - m.y
  if dx * dx + dy * dy < (star.radius + m.radius) * (star.radius + m.radius) then
    ({ star with vx := cosAtan2 dy dx * 5, vy := sinAtan2 dy dx * 5 },
      acc.2 ++ [Event.hazardHit star.id])
  else acc

def checkMeteoriteCollisions (meteorites : List Meteorite) (star : Star) :
    Star × List Event :=
  meteorites.foldl meteoriteCollisionStep (star, [])

/-! ## `updateStars` (`physics.js` lines 259-294) -/

/-- The body of the `stars.forEach` in `updateStars`, applied to one star.
The final stopping test `Math.sqrt (vx²+vy²) < minSpeed` is embedded in
squared form. -/
def updateOneStar (dt : ℚ) (holes : List Hole) (meteorites : List Meteorite)
    (star : Star) : Star × List Event :=
  if ¬star.moving ∨ star.inHole then (star, []) else
    -- Aplicar fricción
    let vx := star.vx * friction
    let vy := star.vy * friction
    -- Actualizar posición con deltaTime, y rotación
    let s1 : Star := { star with
      vx := vx, vy := vy,
      x := star.x + vx * dt, y := star.y + vy * dt,
      rotation := star.rotation + vx * (1 / 10) * dt }
    let p2 := checkBoundaryCollisions s1
    let p3 := checkHoleCollisions holes p2.1
    let p4 := checkMeteoriteCollisions meteorites p3.1
    let s4 := p4.1
    -- Detener si velocidad es muy baja
    let s5 : Star :=
      if s4.vx * s4.vx + s4.vy * s4.vy < minSpeed * minSpeed then
        { s4 with vx := 0, vy := 0, moving := false }
      else s4
    (s5, p2.2 ++ p3.2 ++ p4.2)

def updateStars (dt : ℚ) (holes : List Hole) (meteorites : List Meteorite)
    (stars : List Star) : List Star × List Event :=
  stars.foldl
    (fun acc star =>
      let p := updateOneStar dt holes meteorites star
      (acc.1 ++ [p.1], acc.2 ++ p.2))
    ([], [])

/-! ## `updateMeteorites` (`physics.js` lines 320-351) -/

def updateOneMeteorite (dt : ℚ) (m : Meteorite) : Meteorite :=
  let m1 : Meteorite := { m with
    x := m.x + m.vx * dt, y := m.y + m.vy * dt,
    rotation := m.rotation + m.rotationSpeed * (1 / 100) * dt }
  let r := m1.radius
  let m2 : Meteorite :=
    if m1.x < r ∨ m1.x > boardWidth - r then
      { m1 with vx := m1.vx * (-1), x := if m1.x < r then r else boardWidth - r }
    else m1
  if m2.y < r ∨ m2.y > boardHeight - r then
    { m2 with vy := m2.vy * (-1), y := if m2.y < r then r else boardHeight - r }
  else m2

def updateMeteorites (dt : ℚ) (meteorites : List Meteorite) : List Meteorite :=
  meteorites.map (updateOneMeteorite dt)

/-! ## `updateCamera` (`physics.js` lines 444-467) -/

def updateCamera (stars : List Star) (camera : ℚ × ℚ) : ℚ × ℚ :=
  let movingStars := stars.filter (fun s => s.moving && !s.inHole)
  if movingStars.length = 0 then camera
  else
    let avgX := (movingStars.map Star.x).sum / (movingStars.length : ℚ)
    let avgY := (movingStars.map Star.y).sum / (movingStars.length : ℚ)
    let cameraSpeed : ℚ := 5 / 100
    (camera.1 + (avgX - camera.1) * cameraSpeed,
     camera.2 + (avgY - camera.2) * cameraSpeed)

/-! ## `update` (`physics.js` lines 234-254) -/

/-- The deltaTime normalisation of `update`: the raw elapsed-time quotient
`(now - lastUpdateTime) / 16.67` is passed in as `rawDt`; the source then
runs `if (deltaTime > 3) deltaTime = 1` and
`if (!this.useDeltaTime) deltaTime = 1`. -/
def effectiveDelta (useDeltaTime : Bool) (rawDt : ℚ) : ℚ :=
  let d := if rawDt > 3 then 1 else rawDt
  if !useDeltaTime then 1 else d

def update (rawDt : ℚ) (useDeltaTime : Bool) (s : PhysState) (camera : ℚ × ℚ) :
    PhysState × (ℚ × ℚ) × List Event :=
  if !s.enabled then (s, camera, []) else
    let dt := effectiveDelta useDeltaTime rawDt
    let p := updateStars dt s.holes s.meteorites s.stars
    let mets := updateMeteorites dt s.meteorites
    let camera' := updateCamera p.1 camera
    ({ s with stars := p.1, meteorites := mets }, camera', p.2)

/-! ## `setActiveHole` (`physics.js` lines 173-191) -/

/-- `setActiveHole`: clears `isActive` on every hole, then activates the hole
at index `Math.floor (rand * holes.length)` where `rand` is the
`Math.random()` draw; when that index holds no hole (empty collection)
nothing is activated. -/
def setActiveHole (rand : ℚ) (holes : List Hole) : List Hole :=
  let cleared := holes.map (fun h => { h with isActive := false })
  let randomIndex := (Int.floor (rand * (cleared.length : ℚ))).toNat
  match cleared.get? randomIndex with
  | none => cleared
  | some h => cleared.set randomIndex { h with isActive := true }

/-- Number of holes with `isActive = true`. -/
def countActive (holes : List Hole) : ℕ :=
  (holes.filter (fun h => h.isActive)).length

/-! ## `shootStar` (`physics.js` lines 196-229) -/

/-- `shootStar(gameState, dragDistance, dragTime)`: `selected`, `startPos`
and `currentPos` are the fields of `gameState` that the source reads
(`dragTime` is read by no branch and is omitted).  `Math.sqrt (dx²+dy²)`
is embedded by `ratSqrt`; the guard `directionLength === 0` holds exactly
when `dx = dy = 0` (proved below as `ratSqrt_sumSq_eq_zero_iff`). -/
def shootStar (s : PhysState) (selected : Option String)
    (startPos currentPos : ℚ × ℚ) (dragDistance : ℚ) : PhysState :=
  match selected with
  | none => s
  | some sid =>
    if !s.enabled then s else
    match s.stars.findIdx? (fun st => st.id == sid) with
    | none => s
    | some i =>
      match s.stars.get? i with
      | none => s
      | some star =>
        let dx := startPos.1 - currentPos.1
        let dy := startPos.2 - currentPos.2
        let directionLength := ratSqrt (dx * dx + dy * dy)
        if directionLength = 0 then s else
        let power := min (dragDistance * POWER_FACTOR) MAX_VELOCITY
        let vx := dx / directionLength * power * (1 / star.mass)
        let vy := dy / directionLength * power * (1 / star.mass)
        let star' : Star :=
          { star with vx := vx, vy := vy, moving := true, inHole := false }
        { s with stars := s.stars.set i star' }

/-! ## `switchActiveStar` (`physics.js` lines 472-498) -/

/-- `switchActiveStar`: first component of the result is the JavaScript
return value (the function body has no `return expr`, so every path yields
`undefined`, modelled as `none`); second component is the new
`gameState.selectedStar`. -/
def switchActiveStar (stars : List Star) (selected : Option String) :
    Option String × Option String :=
  let availableStars := stars.filter (fun st => !st.moving && !st.inHole)
  if availableStars.length = 0 then (none, selected)
  else
    let selectedIndex : ℤ :=
      match selected with
      | none => -1
      | some sid =>
        match availableStars.findIdx? (fun st => st.id == sid) with
        | none => -1
        | some i => (i : ℤ)
    let nextIndex := ((selectedIndex + 1) % (availableStars.length : ℤ)).toNat
    match availableStars.get? nextIndex with
    | none => (none, selected)
    | some nextStar => (none, some nextStar.id)

/-! ## Game-layer target-entered resolution (`game.js` lines 724-736) -/

/-- `onStarInHole(starId)` in `game.js`: awards 100 points
(`updateScore(100)` does `score += points`), plays a sound, triggers
vibration and shows a notification; it touches no physics state and in
particular never calls `setActiveHole`. -/
def onStarInHole (score : ℤ) : ℤ := score + 100

/-- A full frame as the game loop runs it: `physicsEngine.update` followed
by the game-layer handling of each emitted `targetEntered` event via
`onStarInHole`. -/
def frame (rawDt : ℚ) (useDeltaTime : Bool) (s : PhysState) (camera : ℚ × ℚ)
    (score : ℤ) : PhysState × (ℚ × ℚ) × ℤ :=
  let r := update rawDt useDeltaTime s camera
  let score' := r.2.2.foldl
    (fun sc e => match e with
      | Event.targetEntered _ => onStarInHole sc
      | _ => sc) score
  (r.1, r.2.1, score')

/-- Modelled from the spec (refinement comparison only): the target-entered
resolution the specification describes, in which the active-hole selection
operation is invoked immediately after the game-layer handler, consuming
the next random draw `rand`. -/
def frameSpec (rawDt : ℚ) (useDeltaTime : Bool) (s : PhysState)
    (camera : ℚ × ℚ) (score : ℤ) (rand : ℚ) : PhysState × (ℚ × ℚ) × ℤ :=
  let r := frame rawDt useDeltaTime s camera score
  let entered := (update rawDt useDeltaTime s camera).2.2.any
    (fun e => match e with | Event.targetEntered _ => true | _ => false)
  if entered then
    ({ r.1 with holes := setActiveHole rand r.1.holes }, r.2.1, r.2.2)
  else r

/-! ## `togglePhysics` (`physics.js` lines 561-565) -/

def togglePhysics (s : PhysState) : PhysState × Bool :=
  ({ s with enabled := !s.enabled }, !s.enabled)

/-! ## Concrete fixtures for witnesses and counterexamples -/

/-- A star currently in flight (as after a shot). -/
def exStarMoving : Star :=
  { id := "star1", x := 800, y := 400, vx := 1, vy := 0, mass := 1,
    restitution := 4 / 5, moving := true, inHole := false, rotation := 0,
    radius := STAR_RADIUS }

/-- An idle star eligible for selection and shooting. -/
def exStarIdle : Star :=
  { id := "star1", x := 800, y := 400, vx := 0, vy := 0, mass := 1,
    restitution := 4 / 5, moving := false, inHole := false, rotation := 0,
    radius := STAR_RADIUS }

def exStarIdle2 : Star := { exStarIdle with id := "star2" }
def exStarIdle3 : Star := { exStarIdle with id := "star3" }

/-- The active hole, placed where `exStarMoving` lands after one step. -/
def exHoleActive : Hole :=
  { id := "hole1", x := 40049 / 50, y := 390, radius := HOLE_RADIUS,
    isActive := true }

/-- A distant inactive hole. -/
def exHoleFar : Hole :=
  { id := "hole2", x := 100, y := 390, radius := HOLE_RADIUS, isActive := false }

/-- A meteorite at distance 5 from where `exStarMoving` lands after one step
(offset `(3, 4)`, a perfect rational distance). -/
def exMeteorite : Meteorite :=
  { id := "meteorite1", x := 39899 / 50, y := 396, radius := METEORITE_RADIUS,
    vx := 0, vy := 0, rotationSpeed := 0, rotation := 0 }

/-- Engine state with one star in flight about to settle in the active hole
while also touching a meteorite. -/
def exEngSettle : PhysState :=
  { stars := [exStarMoving], holes := [exHoleActive], meteorites := [exMeteorite],
    enabled := true }

/-- Engine state with one star in flight about to settle in the active hole,
with a second (inactive) hole available. -/
def exEngFrame : PhysState :=
  { stars := [exStarMoving], holes := [exHoleActive, exHoleFar],
    meteorites := [], enabled := true }

/-- Engine state with one star already in flight, used against `shootStar`. -/
def exEngShot : PhysState :=
  { stars := [{ exStarMoving with vx := 5, vy := 5 }], holes := [],
    meteorites := [], enabled := true }

/-- Engine state with one idle star. -/
def exEngIdle : PhysState :=
  { stars := [exStarIdle], holes := [], meteorites := [], enabled := true }

/-! ## Basic facts about the embedding helpers -/

lemma ratSqrt_zero : ratSqrt 0 = 0 := by simp [ratSqrt]

lemma ratSqrt_of_nonpos {q : ℚ} (h : q ≤ 0) : ratSqrt q = 0 := by
  simp [ratSqrt, h]

/-! ## Field-preservation lemmas for the collision passes -/

lemma holeCollisionStep_fields (acc : Star × List Event) (h : Hole) :
    (holeCollisionStep acc h).1.x = acc.1.x ∧
    (holeCollisionStep acc h).1.y = acc.1.y ∧
    (holeCollisionStep acc h).1.radius = acc.1.radius ∧
    (holeCollisionStep acc h).1.restitution = acc.1.restitution := by
  simp only [holeCollisionStep]
  split_ifs <;> simp

lemma holeCollisionStep_flags (acc : Star × List Event) (h : Hole)
    (hi : acc.1.inHole = true → acc.1.moving = false) :
    (holeCollisionStep acc h).1.inHole = true →
    (holeCollisionStep acc h).1.moving = false := by
  simp only [holeCollisionStep]
  split_ifs <;> simp_all

lemma checkHoleCollisions_fields (holes : List Hole) (star : Star) :
    (checkHoleCollisions holes star).1.x = star.x ∧
    (checkHoleCollisions holes star).1.y = star.y ∧
    (checkHoleCollisions holes star).1.radius = star.radius ∧
    (checkHoleCollisions holes star).1.restitution = star.restitution := by
  unfold checkHoleCollisions
  suffices h : ∀ acc : Star × List Event,
      (holes.foldl holeCollisionStep acc).1.x = acc.1.x ∧
      (holes.foldl holeCollisionStep acc).1.y = acc.1.y ∧
      (holes.foldl holeCollisionStep acc).1.radius = acc.1.radius ∧
      (holes.foldl holeCollisionStep acc).1.restitution = acc.1.restitution by
    exact h (star, [])
  induction holes with
  | nil => intro acc; simp
  | cons hd tl ih =>
    intro acc
    have h1 := holeCollisionStep_fields acc hd
    have h2 := ih (holeCollisionStep acc hd)
    simp only [List.foldl_cons]
    exact ⟨h2.1.trans h1.1, (h2.2.1).trans h1.2.1,
      (h2.2.2.1).trans h1.2.2.1, (h2.2.2.2).trans h1.2.2.2⟩

lemma checkHoleCollisions_flags (holes : List Hole) (star : Star)
    (hi : star.inHole = true → star.moving = false) :
    (checkHoleCollisions holes star).1.inHole = true →
    (checkHoleCollisions holes star).1.moving = false := by
  unfold checkHoleCollisions
  suffices h : ∀ acc : Star × List Event,
      (acc.1.inHole = true → acc.1.moving = false) →
      ((holes.foldl holeCollisionStep acc).1.inHole = true →
        (holes.foldl holeCollisionStep acc).1.moving = false) by
    exact h (star, []) hi
  induction holes with
  | nil => intro acc hacc; simpa using hacc
  | cons hd tl ih =>
    intro acc hacc
    simp only [List.foldl_cons]
    exact ih (holeCollisionStep acc hd) (holeCollisionStep_flags acc hd hacc)

lemma meteoriteCollisionStep_fields (acc : Star × List Event) (m : Meteorite) :
    (meteoriteCollisionStep acc m).1.x = acc.1.x ∧
    (meteoriteCollisionStep acc m).1.y = acc.1.y ∧
    (meteoriteCollisionStep acc m).1.radius = acc.1.radius ∧
    (meteoriteCollisionStep acc m).1.restitution = acc.1.restitution ∧
    (meteoriteCollisionStep acc m).1.moving = acc.1.moving ∧
    (meteoriteCollisionStep acc m).1.inHole = acc.1.inHole := by
  simp only [meteoriteCollisionStep]
  split_ifs <;> simp

lemma checkMeteoriteCollisions_fields (mets : List Meteorite) (star : Star) :
    (checkMeteoriteCollisions mets star).1.x = star.x ∧
    (checkMeteoriteCollisions mets star).1.y = star.y ∧
    (checkMeteoriteCollisions mets star).1.radius = star.radius ∧
    (checkMeteoriteCollisions mets star).1.restitution = star.restitution ∧
    (checkMeteoriteCollisions mets star).1.moving = star.moving ∧
    (checkMeteoriteCollisions mets star).1.inHole = star.inHole := by
  unfold checkMeteoriteCollisions
  suffices h : ∀ acc : Star × List Event,
      (mets.foldl meteoriteCollisionStep acc).1.x = acc.1.x ∧
      (mets.foldl meteoriteCollisionStep acc).1.y = acc.1.y ∧
      (mets.foldl meteoriteCollisionStep acc).1.radius = acc.1.radius ∧
      (mets.foldl meteoriteCollisionStep acc).1.restitution = acc.1.restitution ∧
      (mets.foldl meteoriteCollisionStep acc).1.moving = acc.1.moving ∧
      (mets.foldl meteoriteCollisionStep acc).1.inHole = acc.1.inHole by
    exact h (star, [])
  induction mets with
  | nil => intro acc; simp
  | cons hd tl ih =>
    intro acc
    have h1 := meteoriteCollisionStep_fields acc hd
    have h2 := ih (meteoriteCollisionStep acc hd)
    simp only [List.foldl_cons]
    exact ⟨h2.1.trans h1.1, h2.2.1.trans h1.2.1, h2.2.2.1.trans h1.2.2.1,
      h2.2.2.2.1.trans h1.2.2.2.1, h2.2.2.2.2.1.trans h1.2.2.2.2.1,
      h2.2.2.2.2.2.trans h1.2.2.2.2.2⟩

lemma checkBoundaryCollisions_fields (s : Star) :
    (checkBoundaryCollisions s).1.moving = s.moving ∧
    (checkBoundaryCollisions s).1.inHole = s.inHole ∧
    (checkBoundaryCollisions s).1.radius = s.radius ∧
    (checkBoundaryCollisions s).1.restitution = s.restitution := by
  simp only [checkBoundaryCollisions]
  split_ifs <;> simp

/-! ## Hole preservation through a frame -/

lemma update_holes (rawDt : ℚ) (u : Bool) (s : PhysState) (cam : ℚ × ℚ) :
    ((update rawDt u s cam).1).holes = s.holes := by
  unfold update
  split <;> rfl

lemma frame_holes (rawDt : ℚ) (u : Bool) (s : PhysState) (cam : ℚ × ℚ)
    (sc : ℤ) : ((frame rawDt u s cam sc).1).holes = s.holes := by
  unfold frame
  exact update_holes rawDt u s cam

end StellarPool

namespace StellarPool

/-! ## Claim C2 — deltaTime clamping -/

/-- C2 (amended): the normalized time multiplier never exceeds 3, but when
the raw elapsed-time quotient exceeds 3 the step is advanced with
multiplier exactly 1.0, not 3.0. -/
theorem C2_deltaTime_reset (u : Bool) (raw : ℚ) :
    effectiveDelta u raw ≤ 3 ∧ (raw > 3 → effectiveDelta u raw = 1) := by
  constructor
  · by_cases h : raw > 3
    · cases u <;> norm_num [effectiveDelta, h]
    · cases u
      · norm_num [effectiveDelta, h]
      · norm_num [effectiveDelta, h]
        linarith
  · intro h
    cases u <;> norm_num [effectiveDelta, h]

/-- C2 counterexample: with raw elapsed-time quotient 4 (> 3), `update`
advances with multiplier 1, not 3. -/
theorem C2_counterexample :
    effectiveDelta true 4 = 1 ∧ effectiveDelta true 4 ≠ 3 := by
  norm_num [effectiveDelta]

/-- C2 witness: the amended clamp evaluated at raw quotient 4. -/
theorem C2_witness : effectiveDelta true 4 ≤ 3 ∧ effectiveDelta true 4 = 1 :=
  ⟨(C2_deltaTime_reset true 4).1, (C2_deltaTime_reset true 4).2 (by norm_num)⟩

/-! ## Claim C10 — disabled engine update is a no-op -/

/-- C10: when the engine's `enabled` flag is false (as after `togglePhysics`
turned physics off), `update` is a complete no-op: stars, meteorites and the
camera are unchanged, and no event is emitted. -/
theorem C10_disabled_update_noop (rawDt : ℚ) (u : Bool) (s : PhysState)
    (cam : ℚ × ℚ) :
    (s.enabled = true → ((togglePhysics s).1).enabled = false) ∧
    (s.enabled = false → update rawDt u s cam = (s, cam, [])) := by
  constructor
  · intro h; simp [togglePhysics, h]
  · intro h; unfold update; simp [h]

/-- C10 witness: `update` on a concrete disabled engine state. -/
theorem C10_witness :
    update 4 true { exEngSettle with enabled := false } (0, 0)
      = ({ exEngSettle with enabled := false }, (0, 0), []) :=
  (C10_disabled_update_noop 4 true { exEngSettle with enabled := false } (0, 0)).2 rfl

/-! ## Claim C4 — no active-hole re-selection after target entry -/

/-- C4 (amended): the active-hole selection runs at level start only; the
resolution of a target-entered event (the physics settle plus the game
layer's `onStarInHole` handling) never invokes it — the hole collection,
including the `isActive` flags, is unchanged by an entire frame. -/
theorem C4_no_reselect_after_target (rawDt : ℚ) (u : Bool) (s : PhysState)
    (cam : ℚ × ℚ) (sc : ℤ) : ((frame rawDt u s cam sc).1).holes = s.holes :=
  frame_holes rawDt u s cam sc

end StellarPool

namespace StellarPool

/-! ## Literal evaluation helpers -/

lemma toNat_25 : Int.toNat 25 = 25 := rfl
lemma toNat_10000 : Int.toNat 10000 = 10000 := rfl

/-! ## The star list produced by `updateStars` -/

lemma updateStars_stars_eq (dt : ℚ) (holes : List Hole)
    (mets : List Meteorite) (stars : List Star) :
    (updateStars dt holes mets stars).1
      = stars.map (fun st => (updateOneStar dt holes mets st).1) := by
  unfold updateStars
  suffices h : ∀ acc : List Star × List Event,
      (stars.foldl
        (fun acc star =>
          let p := updateOneStar dt holes mets star
          (acc.1 ++ [p.1], acc.2 ++ p.2)) acc).1
        = acc.1 ++ stars.map (fun st => (updateOneStar dt holes mets st).1) by
    simpa using h ([], [])
  induction stars with
  | nil => intro acc; simp
  | cons hd tl ih =>
    intro acc
    simp only [List.foldl_cons, List.map_cons, ih]
    simp

/-! ## Claim C1 — flags of a settled star -/

lemma stopCheck_flags (s4 : Star)
    (h4 : s4.inHole = true → s4.moving = false) :
    (if s4.vx * s4.vx + s4.vy * s4.vy < minSpeed * minSpeed then
        { s4 with vx := 0, vy := 0, moving := false }
      else s4).inHole = true →
    (if s4.vx * s4.vx + s4.vy * s4.vy < minSpeed * minSpeed then
        { s4 with vx := 0, vy := 0, moving := false }
      else s4).moving = false := by
  split_ifs <;> simp_all

lemma collisions_flags (holes : List Hole) (mets : List Meteorite) (s1 : Star)
    (hin : s1.inHole = false) :
    (checkMeteoriteCollisions mets
        (checkHoleCollisions holes (checkBoundaryCollisions s1).1).1).1.inHole = true →
    (checkMeteoriteCollisions mets
        (checkHoleCollisions holes (checkBoundaryCollisions s1).1).1).1.moving = false := by
  have hb := checkBoundaryCollisions_fields s1
  have h2 : (checkBoundaryCollisions s1).1.inHole = false := by
    rw [hb.2.1]; exact hin
  have h3 := checkHoleCollisions_flags holes (checkBoundaryCollisions s1).1
    (fun hh => absurd (h2 ▸ hh) (by simp))
  have hm := checkMeteoriteCollisions_fields mets
    (checkHoleCollisions holes (checkBoundaryCollisions s1).1).1
  intro hfin
  rw [hm.2.2.2.2.1]
  exact h3 (by rw [← hm.2.2.2.2.2]; exact hfin)

lemma updateOneStar_flags (dt : ℚ) (holes : List Hole) (mets : List Meteorite)
    (star : Star) (h : star.inHole = true → star.moving = false) :
    (updateOneStar dt holes mets star).1.inHole = true →
    (updateOneStar dt holes mets star).1.moving = false := by
  unfold updateOneStar
  by_cases hg : ¬star.moving = true ∨ star.inHole = true
  · rw [if_pos hg]; exact h
  · rw [if_neg hg]
    push_neg at hg
    exact stopCheck_flags _
      (collisions_flags holes mets _ (by simpa using hg.2))

/-- C1 (amended): after a full `updateStars` pass, every star with
`inHole = true` has `moving = false` (given the flags were consistent
beforehand); however the settle transition's zeroed velocity may be
overwritten by a later inactive-hole or meteorite check in the same pass,
so `inHole = true` does not guarantee velocity `(0, 0)`. -/
theorem C1_settled_never_moving (dt : ℚ) (holes : List Hole)
    (mets : List Meteorite) (stars : List Star)
    (h : ∀ st ∈ stars, st.inHole = true → st.moving = false) :
    ∀ st' ∈ (updateStars dt holes mets stars).1,
      st'.inHole = true → st'.moving = false := by
  intro st' hmem hin
  rw [updateStars_stars_eq] at hmem
  obtain ⟨st, hst, rfl⟩ := List.mem_map.mp hmem
  exact updateOneStar_flags dt holes mets st (h st hst) hin

/-- C1 counterexample: a star that settles into the active hole during a
pass and then touches a meteorite later in the same pass ends the pass with
`inHole = true`, `moving = false` but velocity `(3, 4) ≠ (0, 0)`. -/
theorem C1_counterexample :
    ((updateOneStar 1 [exHoleActive] [exMeteorite] exStarMoving).1.inHole = true) ∧
    ((updateOneStar 1 [exHoleActive] [exMeteorite] exStarMoving).1.moving = false) ∧
    ¬((updateOneStar 1 [exHoleActive] [exMeteorite] exStarMoving).1.vx = 0 ∧
      (updateOneStar 1 [exHoleActive] [exMeteorite] exStarMoving).1.vy = 0) := by
  norm_num [updateOneStar, checkBoundaryCollisions, checkHoleCollisions,
    checkMeteoriteCollisions, holeCollisionStep, meteoriteCollisionStep,
    exStarMoving, exHoleActive, exMeteorite, friction, minSpeed,
    collisionThreshold, boardWidth, boardHeight, STAR_RADIUS, HOLE_RADIUS,
    METEORITE_RADIUS, cosAtan2, sinAtan2, ratSqrt, toNat_25]

/-- C1 witness: the amended flag invariant evaluated on the same concrete
pass. -/
theorem C1_witness :
    List.Forall (fun st' => st'.inHole = true → st'.moving = false)
      (updateStars 1 [exHoleActive] [exMeteorite] [exStarMoving]).1 :=
  List.forall_iff_forall_mem.mpr
    (C1_settled_never_moving 1 [exHoleActive] [exMeteorite] [exStarMoving]
      (by decide))

/-! ## Claim C4 — counterexample -/

/-- C4 counterexample: in a concrete frame a star enters the active hole
(the target-entered event is emitted and resolved), yet the hole flags are
exactly as before the frame; re-selecting with the next random draw `3/4`
would instead have activated the second hole. -/
theorem C4_counterexample :
    (update 1 true exEngFrame (0, 0)).2.2 = [Event.targetEntered "star1"] ∧
    (frame 1 true exEngFrame (0, 0) 0).1.holes = exEngFrame.holes ∧
    (frameSpec 1 true exEngFrame (0, 0) 0 (3/4)).1.holes ≠ exEngFrame.holes := by
  norm_num [frameSpec, frame, update, updateStars, updateOneStar, updateMeteorites,
    updateCamera, effectiveDelta, checkBoundaryCollisions, checkHoleCollisions,
    checkMeteoriteCollisions, holeCollisionStep, meteoriteCollisionStep,
    setActiveHole, onStarInHole, exEngFrame, exStarMoving, exHoleActive, exHoleFar,
    friction, minSpeed, collisionThreshold, boardWidth, boardHeight, STAR_RADIUS,
    HOLE_RADIUS, cosAtan2, sinAtan2, ratSqrt, toNat_25, Hole.mk.injEq]

end StellarPool

namespace StellarPool

/-! ## Claim C5 — exactly one active hole -/

lemma countActive_eq_zero {l : List Hole}
    (h : ∀ x ∈ l, x.isActive = false) : countActive l = 0 := by
  induction l with
  | nil => rfl
  | cons hd tl ih =>
    have hhd : hd.isActive = false := h hd (by simp)
    have htl := ih fun x hx => h x (List.mem_cons_of_mem _ hx)
    simp [countActive, List.filter_cons, hhd]
    simpa [countActive] using htl

lemma countActive_set_true : ∀ (l : List Hole) (i : ℕ), i < l.length →
    (∀ x ∈ l, x.isActive = false) → ∀ a : Hole, a.isActive = true →
    countActive (l.set i a) = 1 := by
  intro l
  induction l with
  | nil => intro i hi; simp at hi
  | cons hd tl ih =>
    intro i hi h a ha
    cases i with
    | zero =>
      have h0 : countActive tl = 0 :=
        countActive_eq_zero fun x hx => h x (List.mem_cons_of_mem _ hx)
      simp only [List.set_cons_zero]
      simp [countActive, List.filter_cons, ha]
      simpa [countActive] using h0
    | succ n =>
      have hhd : hd.isActive = false := h hd (by simp)
      have := ih n (by simpa using hi)
        (fun x hx => h x (List.mem_cons_of_mem _ hx)) a ha
      simp only [List.set_cons_succ]
      simpa [countActive, List.filter_cons, hhd] using this

/-- C5: `setActiveHole` leaves exactly one hole active (zero when the
collection is empty, without crashing), and a frame — in particular the
resolution of a target-entered event — never changes the number of active
holes. -/
theorem C5_exactly_one_active :
    (∀ (rand : ℚ) (holes : List Hole), 0 ≤ rand → rand < 1 →
      (holes = [] → setActiveHole rand holes = []) ∧
      (holes ≠ [] → countActive (setActiveHole rand holes) = 1)) ∧
    (∀ (rawDt : ℚ) (u : Bool) (s : PhysState) (cam : ℚ × ℚ) (sc : ℤ),
      countActive ((frame rawDt u s cam sc).1).holes = countActive s.holes) := by
  constructor
  · intro rand holes h0 h1
    constructor
    · rintro rfl
      simp [setActiveHole]
    · intro hne
      have hcl : ∀ x ∈ holes.map (fun h => ({ h with isActive := false } : Hole)),
          x.isActive = false := by
        intro x hx
        obtain ⟨h, _, rfl⟩ := List.mem_map.mp hx
        rfl
      have hlenpos : 0 < (holes.map (fun h => ({ h with isActive := false } : Hole))).length := by
        simpa using List.length_pos.mpr hne
      have hmul : rand * ((holes.map (fun h => ({ h with isActive := false } : Hole))).length : ℚ)
          < ((holes.map (fun h => ({ h with isActive := false } : Hole))).length : ℚ) := by
        have hc : (0:ℚ) < ((holes.map (fun h => ({ h with isActive := false } : Hole))).length : ℚ) := by
          exact_mod_cast hlenpos
        calc rand * _ < 1 * ((holes.map (fun h => ({ h with isActive := false } : Hole))).length : ℚ) :=
              mul_lt_mul_of_pos_right h1 hc
          _ = _ := one_mul _
      have hfl : (Int.floor (rand * ((holes.map (fun h => ({ h with isActive := false } : Hole))).length : ℚ))).toNat
          < (holes.map (fun h => ({ h with isActive := false } : Hole))).length := by
        have h2 : Int.floor (rand * ((holes.map (fun h => ({ h with isActive := false } : Hole))).length : ℚ))
            < ((holes.map (fun h => ({ h with isActive := false } : Hole))).length : ℤ) := by
          rw [Int.floor_lt]
          exact_mod_cast hmul
        omega
      unfold setActiveHole
      simp only [List.get?_eq_get hfl]
      exact countActive_set_true _ _ hfl hcl _ rfl
  · intro rawDt u s cam sc
    rw [frame_holes]

/-- C5 witness: a concrete draw over a two-hole collection. -/
theorem C5_witness :
    countActive (setActiveHole (1/2) [exHoleActive, exHoleFar]) = 1 :=
  (C5_exactly_one_active.1 (1/2) [exHoleActive, exHoleFar]
    (by norm_num) (by norm_num)).2 (by simp)

end StellarPool

namespace StellarPool

/-! ## Claim C9 — switchActiveStar -/

/-- C9 (amended): `switchActiveStar` advances the selection to the next
eligible star (wrapping over the eligible sublist in stored order) and is a
no-op when no star is eligible, but its JavaScript return value is always
`undefined` (`none`) — it never returns the newly selected identity. -/
theorem C9_switch_returns_none (stars : List Star) (sel : Option String) :
    (switchActiveStar stars sel).1 = none ∧
    (stars.filter (fun st => !st.moving && !st.inHole) = [] →
      switchActiveStar stars sel = (none, sel)) ∧
    (∀ (sid : String) (i : ℕ), sel = some sid →
      (stars.filter (fun st => !st.moving && !st.inHole)).findIdx?
          (fun st => st.id == sid) = some i →
      (switchActiveStar stars sel).2 =
        ((stars.filter (fun st => !st.moving && !st.inHole)).get?
          ((i + 1) % (stars.filter (fun st => !st.moving && !st.inHole)).length)).map
          Star.id) := by
  refine ⟨?_, ?_, ?_⟩
  · simp only [switchActiveStar]
    split
    · rfl
    · split <;> rfl
  · intro h
    simp only [switchActiveStar, h]
    simp
  · intro sid i hsel hfind
    subst hsel
    have hilt : i < (stars.filter (fun st => !st.moving && !st.inHole)).length :=
      (List.findIdx?_eq_some_iff_findIdx_eq.mp hfind).1
    have hlen0 : ¬(stars.filter (fun st => !st.moving && !st.inHole)).length = 0 := by
      omega
    have hmodcast : (((i : ℤ) + 1) %
          ((stars.filter (fun st => !st.moving && !st.inHole)).length : ℤ)).toNat
        = (i + 1) % (stars.filter (fun st => !st.moving && !st.inHole)).length := by
      have hc : ((i : ℤ) + 1) = ((i + 1 : ℕ) : ℤ) := by push_cast; ring
      rw [hc, ← Int.natCast_mod]
      exact Int.toNat_natCast _
    have hmodlt : (i + 1) % (stars.filter (fun st => !st.moving && !st.inHole)).length
        < (stars.filter (fun st => !st.moving && !st.inHole)).length :=
      Nat.mod_lt _ (by omega)
    simp only [switchActiveStar, hfind]
    rw [if_neg hlen0]
    simp only [hmodcast, List.get?_eq_get hmodlt]
    rfl

/-- C9 counterexample: with one eligible star the call advances the
selection to it, but returns `none`, not the newly selected identity. -/
theorem C9_counterexample :
    (switchActiveStar [exStarIdle2] (some "star2")).2 = some "star2" ∧
    (switchActiveStar [exStarIdle2] (some "star2")).1 = none ∧
    (switchActiveStar [exStarIdle2] (some "star2")).1 ≠ some "star2" := by
  decide

/-- C9 witness: the amended statement applied to a concrete two-star state. -/
theorem C9_witness :
    (switchActiveStar [exStarIdle2, exStarIdle3] (some "star2")).1 = none ∧
    (switchActiveStar [exStarIdle2, exStarIdle3] (some "star2")).2 = some "star3" := by
  have h := C9_switch_returns_none [exStarIdle2, exStarIdle3] (some "star2")
  refine ⟨h.1, ?_⟩
  rw [h.2.2 "star2" 0 rfl (by decide)]
  decide

end StellarPool

namespace StellarPool

/-! ## Claim C3 — when shooting is a no-op -/

lemma shootStar_self_noop (s : PhysState) (sel : Option String)
    (sp : ℚ × ℚ) (d : ℚ) : shootStar s sel sp sp d = s := by
  cases sel with
  | none => rfl
  | some sid =>
    simp only [shootStar, sub_self, mul_zero, add_zero, ratSqrt_zero]
    split
    · rfl
    · split
      · rfl
      · split <;> rfl

/-- C3 (amended): `shootStar` is a silent no-op when no star is selected,
when the engine is disabled, when the referenced star does not exist, or
when the drag vector is zero; a star that is `moving` or settled-in-target
is *not* protected — an otherwise valid call re-launches it, overwriting
its velocity and setting `moving = true`, `inHole = false`. -/
theorem C3_shoot_noop_conditions (s : PhysState) (sel : Option String)
    (sp cp : ℚ × ℚ) (d : ℚ) :
    (sel = none → shootStar s sel sp cp d = s) ∧
    (s.enabled = false → shootStar s sel sp cp d = s) ∧
    (∀ sid, sel = some sid →
      s.stars.findIdx? (fun st => st.id == sid) = none →
      shootStar s sel sp cp d = s) ∧
    (sp = cp → shootStar s sel sp cp d = s) ∧
    (∀ sid i star, sel = some sid → s.enabled = true →
      s.stars.findIdx? (fun st => st.id == sid) = some i →
      s.stars.get? i = some star →
      ratSqrt ((sp.1 - cp.1) * (sp.1 - cp.1) + (sp.2 - cp.2) * (sp.2 - cp.2)) ≠ 0 →
      ∃ vx vy, (shootStar s sel sp cp d).stars =
        s.stars.set i { star with vx := vx, vy := vy, moving := true, inHole := false }) := by
  refine ⟨?_, ?_, ?_, ?_, ?_⟩
  · rintro rfl
    rfl
  · intro h
    cases sel with
    | none => rfl
    | some sid => simp [shootStar, h]
  · intro sid hsel hnone
    subst hsel
    simp [shootStar, hnone]
  · rintro rfl
    exact shootStar_self_noop s sel sp d
  · intro sid i star hsel hen hfind hget hlen
    subst hsel
    simp only [shootStar, hen, Bool.not_true, Bool.false_eq_true, if_false,
      hfind, hget]
    rw [if_neg hlen]
    exact ⟨_, _, rfl⟩

/-- C3 counterexample: `shootStar` on a star with `moving = true` replaces
its velocity `(5, 5)` by `(36/5, 48/5)` — the call is not a no-op for a
moving star. -/
theorem C3_counterexample :
    (shootStar exEngShot (some "star1") (60, 80) (0, 0) 100).stars.map Star.vx
        = [36/5] ∧
    (shootStar exEngShot (some "star1") (60, 80) (0, 0) 100).stars
        ≠ exEngShot.stars := by
  norm_num [shootStar, exEngShot, exStarMoving, POWER_FACTOR, MAX_VELOCITY,
    ratSqrt, toNat_10000, List.findIdx?, STAR_RADIUS, Star.mk.injEq]

/-- C3 witness: a shot referencing a star id that does not exist leaves the
engine state unchanged. -/
theorem C3_witness :
    shootStar exEngShot (some "nobody") (60, 80) (0, 0) 100 = exEngShot :=
  (C3_shoot_noop_conditions exEngShot (some "nobody") (60, 80) (0, 0) 100).2.2.1
    "nobody" rfl (by decide)

end StellarPool

namespace StellarPool

/-! ## Claim C6 — boundary containment -/

/-- The containment predicate of the spec:
`radius ≤ position ≤ boardExtent - radius` on both axes. -/
def inBounds (st : Star) : Prop :=
  st.radius ≤ st.x ∧ st.x ≤ boardWidth - st.radius ∧
  st.radius ≤ st.y ∧ st.y ≤ boardHeight - st.radius

lemma inBounds_of_fields_eq {a b : Star} (hx : b.x = a.x) (hy : b.y = a.y)
    (hr : b.radius = a.radius) (h : inBounds a) : inBounds b := by
  unfold inBounds at *
  rw [hx, hy, hr]
  exact h

lemma checkBoundaryCollisions_inBounds (s : Star)
    (hx : s.radius ≤ boardWidth - s.radius)
    (hy : s.radius ≤ boardHeight - s.radius) :
    inBounds (checkBoundaryCollisions s).1 := by
  simp only [checkBoundaryCollisions, inBounds]
  split_ifs <;> dsimp only <;>
    refine ⟨?_, ?_, ?_, ?_⟩ <;> first | rfl | linarith

lemma stopCheck_fields (s4 : Star) :
    (if s4.vx * s4.vx + s4.vy * s4.vy < minSpeed * minSpeed then
        { s4 with vx := 0, vy := 0, moving := false }
      else s4).x = s4.x ∧
    (if s4.vx * s4.vx + s4.vy * s4.vy < minSpeed * minSpeed then
        { s4 with vx := 0, vy := 0, moving := false }
      else s4).y = s4.y ∧
    (if s4.vx * s4.vx + s4.vy * s4.vy < minSpeed * minSpeed then
        { s4 with vx := 0, vy := 0, moving := false }
      else s4).radius = s4.radius := by
  split_ifs <;> simp

lemma updateOneStar_inBounds (dt : ℚ) (holes : List Hole)
    (mets : List Meteorite) (star : Star) (h : inBounds star) :
    inBounds (updateOneStar dt holes mets star).1 := by
  unfold updateOneStar
  by_cases hg : ¬star.moving = true ∨ star.inHole = true
  · rw [if_pos hg]; exact h
  · rw [if_neg hg]
    have hx : star.radius ≤ boardWidth - star.radius := le_trans h.1 h.2.1
    have hy : star.radius ≤ boardHeight - star.radius :=
      le_trans h.2.2.1 h.2.2.2
    exact inBounds_of_fields_eq (stopCheck_fields _).1 (stopCheck_fields _).2.1
      (stopCheck_fields _).2.2
      (inBounds_of_fields_eq (checkMeteoriteCollisions_fields mets _).1
        (checkMeteoriteCollisions_fields mets _).2.1
        (checkMeteoriteCollisions_fields mets _).2.2.1
        (inBounds_of_fields_eq (checkHoleCollisions_fields holes _).1
          (checkHoleCollisions_fields holes _).2.1
          (checkHoleCollisions_fields holes _).2.2.1
          (checkBoundaryCollisions_inBounds _ hx hy)))

lemma updateStars_inBounds (dt : ℚ) (holes : List Hole)
    (mets : List Meteorite) (stars : List Star)
    (h : ∀ st ∈ stars, inBounds st) :
    ∀ st' ∈ (updateStars dt holes mets stars).1, inBounds st' := by
  intro st' hmem
  rw [updateStars_stars_eq] at hmem
  obtain ⟨st, hst, rfl⟩ := List.mem_map.mp hmem
  exact updateOneStar_inBounds dt holes mets st (h st hst)

/-- C6: when every star starts a step inside the allowed band
`radius ≤ position ≤ boardExtent - radius` (as the level layout places
them), every star is inside the band again after `update` returns; a
processed star is clamped back by `checkBoundaryCollisions` and the later
hole/meteorite checks move only velocities. -/
theorem C6_boundary_containment (rawDt : ℚ) (u : Bool) (s : PhysState)
    (cam : ℚ × ℚ) (h : ∀ st ∈ s.stars, inBounds st) :
    ∀ st' ∈ ((update rawDt u s cam).1).stars, inBounds st' := by
  intro st' hmem
  unfold update at hmem
  by_cases he : s.enabled
  · rw [if_neg (by simp [he])] at hmem
    exact updateStars_inBounds _ s.holes s.meteorites s.stars h st' hmem
  · rw [if_pos (by simp [he] : (!s.enabled) = true)] at hmem
    exact h st' hmem

/-- C6 witness: a concrete moving star remains inside the band after a
frame update. -/
theorem C6_witness :
    List.Forall inBounds ((update 1 true exEngSettle (0, 0)).1).stars :=
  List.forall_iff_forall_mem.mpr
    (C6_boundary_containment 1 true exEngSettle (0, 0)
      (by
        intro st hst
        simp only [exEngSettle, List.mem_singleton] at hst
        subst hst
        norm_num [inBounds, exStarMoving, STAR_RADIUS, boardWidth, boardHeight]))

end StellarPool

namespace StellarPool

/-! ## Claim C7 — launch velocity -/

/-- C7: for an eligible shot whose drag vector `(cp - sp)` has exact
rational magnitude `L = d > 0`, the launched star moves with velocity a
positive multiple of `(sp - cp)` (the normalized negative of the drag
vector) whose squared magnitude is `(min (d * powerFactor) maxVelocity / mass)²`;
and a zero drag vector makes the call a no-op. -/
theorem C7_shoot_launch :
    (∀ (s : PhysState) (sid : String) (i : ℕ) (star : Star) (sp cp : ℚ × ℚ)
      (d L : ℚ),
      s.enabled = true →
      s.stars.findIdx? (fun st => st.id == sid) = some i →
      s.stars.get? i = some star →
      ratSqrt ((sp.1 - cp.1) * (sp.1 - cp.1) + (sp.2 - cp.2) * (sp.2 - cp.2)) = L →
      L * L = (sp.1 - cp.1) * (sp.1 - cp.1) + (sp.2 - cp.2) * (sp.2 - cp.2) →
      0 < L → 0 < star.mass → d = L →
      ∃ st', (shootStar s (some sid) sp cp d).stars.get? i = some st' ∧
        st'.moving = true ∧ st'.inHole = false ∧
        (∃ c : ℚ, 0 < c ∧ st'.vx = c * (sp.1 - cp.1) ∧ st'.vy = c * (sp.2 - cp.2)) ∧
        st'.vx * st'.vx + st'.vy * st'.vy =
          (min (d * POWER_FACTOR) MAX_VELOCITY / star.mass) *
            (min (d * POWER_FACTOR) MAX_VELOCITY / star.mass)) ∧
    (∀ (s : PhysState) (sel : Option String) (sp : ℚ × ℚ) (d : ℚ),
      shootStar s sel sp sp d = s) := by
  constructor
  · intro s sid i star sp cp d L hen hfind hget hL hsq hL0 hmass hd
    subst hd
    obtain ⟨hi, -⟩ := List.get?_eq_some.mp hget
    have hpf : (0:ℚ) < POWER_FACTOR := by norm_num [POWER_FACTOR]
    have hpow : 0 < min (d * POWER_FACTOR) MAX_VELOCITY :=
      lt_min (mul_pos hL0 hpf) (by norm_num [MAX_VELOCITY])
    have hc0 : 0 < min (d * POWER_FACTOR) MAX_VELOCITY / (d * star.mass) :=
      div_pos hpow (mul_pos hL0 hmass)
    have hLne : d ≠ 0 := ne_of_gt hL0
    have hmne : star.mass ≠ 0 := ne_of_gt hmass
    simp only [shootStar, hen, Bool.not_true, Bool.false_eq_true, if_false,
      hfind, hget, hL]
    rw [if_neg hLne]
    refine ⟨{ star with
        vx := (sp.1 - cp.1) / d * (min (d * POWER_FACTOR) MAX_VELOCITY) * (1 / star.mass),
        vy := (sp.2 - cp.2) / d * (min (d * POWER_FACTOR) MAX_VELOCITY) * (1 / star.mass),
        moving := true, inHole := false }, ?_, rfl, rfl, ?_, ?_⟩
    · rw [List.get?_eq_getElem?, List.getElem?_set_self (by simpa using hi)]
    · refine ⟨min (d * POWER_FACTOR) MAX_VELOCITY / (d * star.mass), hc0, ?_, ?_⟩
      · field_simp
        ring
      · field_simp
        ring
    · field_simp
      linear_combination
        (-(min (d * POWER_FACTOR) MAX_VELOCITY * min (d * POWER_FACTOR) MAX_VELOCITY *
          star.mass * star.mass)) * hsq
  · intro s sel sp d
    exact shootStar_self_noop s sel sp d

end StellarPool

namespace StellarPool

/-- C7 witness: the spec's launch scenario — drag magnitude 100, power
factor 0.12, mass 1 — evaluated on a concrete idle star. -/
theorem C7_witness :
    ∃ st', (shootStar exEngIdle (some "star1") ((60:ℚ), (80:ℚ))
        ((0:ℚ), (0:ℚ)) 100).stars.get? 0 = some st' ∧
      st'.moving = true ∧ st'.inHole = false ∧
      (∃ c : ℚ, 0 < c ∧ st'.vx = c * (((60:ℚ), (80:ℚ)).1 - ((0:ℚ), (0:ℚ)).1) ∧
        st'.vy = c * (((60:ℚ), (80:ℚ)).2 - ((0:ℚ), (0:ℚ)).2)) ∧
      st'.vx * st'.vx + st'.vy * st'.vy =
        (min ((100:ℚ) * POWER_FACTOR) MAX_VELOCITY / exStarIdle.mass) *
          (min ((100:ℚ) * POWER_FACTOR) MAX_VELOCITY / exStarIdle.mass) :=
  C7_shoot_launch.1 exEngIdle "star1" 0 exStarIdle ((60:ℚ), (80:ℚ))
    ((0:ℚ), (0:ℚ)) 100 100 rfl (by decide) rfl
    (by norm_num [ratSqrt, toNat_10000]) (by norm_num) (by norm_num)
    (by norm_num [exStarIdle]) rfl

end StellarPool

namespace StellarPool

/-! ## Claim C8 — friction convergence -/

/-- One `updateStars` pass over a single star with no holes and no
meteorites present (the claim's no-collision regime). -/
def freeStep (dt : ℚ) (st : Star) : Star := (updateOneStar dt [] [] st).1

lemma checkHoleCollisions_nil (s : Star) : checkHoleCollisions [] s = (s, []) := rfl

lemma checkMeteoriteCollisions_nil (s : Star) :
    checkMeteoriteCollisions [] s = (s, []) := rfl

lemma speedSq_nonneg (s : Star) : 0 ≤ speedSq s :=
  add_nonneg (mul_self_nonneg _) (mul_self_nonneg _)

lemma checkBoundaryCollisions_speedSq (s : Star) (h0 : 0 ≤ s.restitution)
    (h1 : s.restitution ≤ 1) :
    speedSq (checkBoundaryCollisions s).1 ≤ speedSq s := by
  have hr2 : s.restitution * s.restitution ≤ 1 :=
    mul_le_one₀ h1 h0 h1
  simp only [checkBoundaryCollisions]
  split_ifs <;> (unfold speedSq; dsimp only) <;>
    nlinarith [mul_self_nonneg s.vx, mul_self_nonneg s.vy, hr2,
      mul_self_nonneg s.restitution]

lemma freeStep_not_moving (dt : ℚ) (st : Star) (h : st.moving = false) :
    freeStep dt st = st := by
  unfold freeStep updateOneStar
  rw [if_pos (Or.inl (by simp [h]))]

lemma freeStep_fields (dt : ℚ) (st : Star) :
    (freeStep dt st).restitution = st.restitution ∧
    (freeStep dt st).inHole = st.inHole := by
  unfold freeStep updateOneStar
  by_cases hg : ¬st.moving = true ∨ st.inHole = true
  · rw [if_pos hg]; exact ⟨rfl, rfl⟩
  · rw [if_neg hg]
    simp only [checkHoleCollisions_nil, checkMeteoriteCollisions_nil]
    constructor
    · split_ifs <;>
        simpa using (checkBoundaryCollisions_fields _).2.2.2
    · split_ifs <;>
        simpa using (checkBoundaryCollisions_fields _).2.1

/-- The star after friction and displacement, before collision checks
(the first half of the `updateStars` body). -/
def integrated (dt : ℚ) (st : Star) : Star :=
  { st with
    vx := st.vx * friction,
    vy := st.vy * friction,
    x := st.x + st.vx * friction * dt,
    y := st.y + st.vy * friction * dt,
    rotation := st.rotation + st.vx * friction * (1 / 10) * dt }

lemma freeStep_eq (dt : ℚ) (st : Star) (hm : st.moving = true)
    (hi : st.inHole = false) :
    freeStep dt st =
      if speedSq (checkBoundaryCollisions (integrated dt st)).1 < minSpeed * minSpeed then
        { (checkBoundaryCollisions (integrated dt st)).1 with
            vx := 0, vy := 0, moving := false }
      else (checkBoundaryCollisions (integrated dt st)).1 := by
  unfold freeStep updateOneStar integrated speedSq
  rw [if_neg (by simp [hm, hi])]
  rfl

lemma integrated_speedSq (dt : ℚ) (st : Star) :
    speedSq (integrated dt st) = friction * friction * speedSq st := by
  simp only [integrated, speedSq]
  ring

lemma freeStep_speedSq (dt : ℚ) (st : Star) (hm : st.moving = true)
    (hi : st.inHole = false) (h0 : 0 ≤ st.restitution)
    (h1 : st.restitution ≤ 1) :
    speedSq (freeStep dt st) ≤ friction * friction * speedSq st := by
  rw [freeStep_eq dt st hm hi]
  split_ifs with hc
  · have hn : (0:ℚ) ≤ friction * friction * speedSq st :=
      mul_nonneg (mul_self_nonneg friction) (speedSq_nonneg st)
    simpa [speedSq] using hn
  · refine le_trans (checkBoundaryCollisions_speedSq (integrated dt st)
      (by simpa [integrated] using h0) (by simpa [integrated] using h1)) ?_
    rw [integrated_speedSq]

lemma freeStep_stopped_velocity (dt : ℚ) (st : Star) (hm : st.moving = true)
    (hi : st.inHole = false) (h : (freeStep dt st).moving = false) :
    (freeStep dt st).vx = 0 ∧ (freeStep dt st).vy = 0 := by
  rw [freeStep_eq dt st hm hi] at h ⊢
  split_ifs at h ⊢
  · exact ⟨rfl, rfl⟩
  · exfalso
    rw [(checkBoundaryCollisions_fields (integrated dt st)).1] at h
    simp only [integrated] at h
    rw [hm] at h
    simp at h

lemma freeStep_stops (dt : ℚ) (st : Star) (hm : st.moving = true)
    (hi : st.inHole = false) (h0 : 0 ≤ st.restitution)
    (h1 : st.restitution ≤ 1)
    (hsmall : friction * friction * speedSq st < minSpeed * minSpeed) :
    (freeStep dt st).moving = false := by
  rw [freeStep_eq dt st hm hi]
  split_ifs with hc
  · rfl
  · exfalso
    apply hc
    have hb := checkBoundaryCollisions_speedSq (integrated dt st)
      (by simpa [integrated] using h0) (by simpa [integrated] using h1)
    rw [integrated_speedSq] at hb
    calc speedSq (checkBoundaryCollisions (integrated dt st)).1
        ≤ friction * friction * speedSq st := hb
      _ < minSpeed * minSpeed := hsmall

/-- C8: a moving, unsettled star with nonzero velocity, stepped repeatedly
with no holes and no meteorites present, stops within a bounded number of
steps: friction `0.98 < 1` shrinks the squared speed geometrically until it
falls below `minSpeed² = 0.25`, at which point the same step zeroes the
velocity and clears `moving`, and every later step leaves the star
untouched. -/
theorem C8_friction_convergence (star : Star) (dt : ℚ)
    (hm : star.moving = true) (hi : star.inHole = false)
    (h0 : 0 ≤ star.restitution) (h1 : star.restitution ≤ 1)
    (hv : ¬(star.vx = 0 ∧ star.vy = 0)) :
    ∃ N, ∀ n, N ≤ n →
      ((freeStep dt)^[n] star).moving = false ∧
      ((freeStep dt)^[n] star).vx = 0 ∧ ((freeStep dt)^[n] star).vy = 0 := by
  have hS0 : 0 < speedSq star := by
    rcases not_and_or.mp hv with h | h
    · exact add_pos_of_pos_of_nonneg (mul_self_pos.mpr h) (mul_self_nonneg _)
    · exact add_pos_of_nonneg_of_pos (mul_self_nonneg _) (mul_self_pos.mpr h)
  have hQ : ∀ n,
      ((freeStep dt)^[n] star).restitution = star.restitution ∧
      ((freeStep dt)^[n] star).inHole = false ∧
      speedSq ((freeStep dt)^[n] star) ≤ (friction * friction) ^ n * speedSq star ∧
      (((freeStep dt)^[n] star).moving = false →
        ((freeStep dt)^[n] star).vx = 0 ∧ ((freeStep dt)^[n] star).vy = 0) := by
    intro n
    induction n with
    | zero =>
      simp only [Function.iterate_zero_apply]
      refine ⟨by simp, hi, by simp, ?_⟩
      intro hfalse
      rw [hm] at hfalse
      exact absurd hfalse (by simp)
    | succ k ihk =>
      obtain ⟨hr, hih, hsp, hstop⟩ := ihk
      rw [Function.iterate_succ_apply']
      cases hmov : ((freeStep dt)^[k] star).moving
      case false =>
        rw [freeStep_not_moving dt _ hmov]
        refine ⟨hr, hih, ?_, hstop⟩
        obtain ⟨hz1, hz2⟩ := hstop hmov
        have hzero : speedSq ((freeStep dt)^[k] star) = 0 := by
          rw [speedSq, hz1, hz2]; ring
        rw [hzero]
        exact mul_nonneg (pow_nonneg (mul_self_nonneg friction) _) (le_of_lt hS0)
      case true =>
        have hdec := freeStep_speedSq dt _ hmov hih
          (by rw [hr]; exact h0) (by rw [hr]; exact h1)
        have hfld := freeStep_fields dt ((freeStep dt)^[k] star)
        refine ⟨hfld.1.trans hr, hfld.2.trans hih, ?_, ?_⟩
        · calc speedSq (freeStep dt ((freeStep dt)^[k] star))
              ≤ friction * friction * speedSq ((freeStep dt)^[k] star) := hdec
            _ ≤ friction * friction * ((friction * friction) ^ k * speedSq star) :=
              mul_le_mul_of_nonneg_left hsp (mul_self_nonneg friction)
            _ = (friction * friction) ^ (k + 1) * speedSq star := by ring
        · intro hstop'
          exact freeStep_stopped_velocity dt _ hmov hih hstop'
  have hf2lt : friction * friction < 1 := by norm_num [friction]
  have hms : (0:ℚ) < minSpeed * minSpeed := by norm_num [minSpeed]
  obtain ⟨N, hN⟩ := exists_pow_lt_of_lt_one (div_pos hms hS0) hf2lt
  have hNS : (friction * friction) ^ N * speedSq star < minSpeed * minSpeed :=
    (lt_div_iff₀ hS0).mp hN
  have hstopN : ((freeStep dt)^[N+1] star).moving = false := by
    obtain ⟨hr, hih, hsp, hstop⟩ := hQ N
    rw [Function.iterate_succ_apply']
    cases hmov : ((freeStep dt)^[N] star).moving
    case false =>
      rw [freeStep_not_moving dt _ hmov]
      exact hmov
    case true =>
      apply freeStep_stops dt _ hmov hih (by rw [hr]; exact h0) (by rw [hr]; exact h1)
      have h2 : friction * friction * speedSq ((freeStep dt)^[N] star)
          ≤ friction * friction * ((friction * friction) ^ N * speedSq star) :=
        mul_le_mul_of_nonneg_left hsp (mul_self_nonneg friction)
      have hnn : 0 ≤ (friction * friction) ^ N * speedSq star :=
        mul_nonneg (pow_nonneg (mul_self_nonneg friction) _) (le_of_lt hS0)
      have h3 : friction * friction * ((friction * friction) ^ N * speedSq star)
          ≤ (friction * friction) ^ N * speedSq star := by
        nlinarith [hnn, hf2lt, mul_self_nonneg friction]
      linarith [hNS]
  have habs : ∀ m, (freeStep dt)^[N+1+m] star = (freeStep dt)^[N+1] star := by
    intro m
    induction m with
    | zero => rfl
    | succ k ihk =>
      have harith : N+1+(k+1) = (N+1+k)+1 := by ring
      rw [harith, Function.iterate_succ_apply', ihk,
        freeStep_not_moving dt _ hstopN]
  refine ⟨N+1, fun n hn => ?_⟩
  obtain ⟨m, rfl⟩ : ∃ m, n = N+1+m := ⟨n - (N+1), by omega⟩
  rw [habs m]
  obtain ⟨-, -, -, hstop⟩ := hQ (N+1)
  exact ⟨hstopN, (hstop hstopN).1, (hstop hstopN).2⟩

end StellarPool

namespace StellarPool

/-- C8 witness: the convergence theorem applied to a concrete moving star
with velocity `(1, 0)`. -/
theorem C8_witness :
    ∃ N, ∀ n, N ≤ n →
      ((freeStep 1)^[n] exStarMoving).moving = false ∧
      ((freeStep 1)^[n] exStarMoving).vx = 0 ∧
      ((freeStep 1)^[n] exStarMoving).vy = 0 :=
  C8_friction_convergence exStarMoving 1 rfl rfl
    (by norm_num [exStarMoving]) (by norm_num [exStarMoving])
    (by norm_num [exStarMoving])

end StellarPool
